import Mathlib

/-!
Verification development for the FluentWork practice-conversation backend.

The Python sources (models.py, scenarios.py, conversation_engine.py,
feedback_analyzer.py, main.py) are shallowly embedded below:
pure functions become Lean functions, the HTTP endpoints become explicit
state-passing functions over the in-memory session store and user-progress
record, external collaborator calls (the OpenAI chat API) become an
Option-valued input (none = the collaborator raised an error), and
wall-clock time becomes an explicit Nat parameter.  Python floats that the
program only ever compares for equality with decimal literals are modelled
by rationals.
-/

namespace FluentWork

/-- models.py ComplexityLevel enumeration. -/
inductive ComplexityLevel where
  | easy
  | medium
  | hard
deriving DecidableEq, Repr

/-- models.py MessageRole enumeration. -/
inductive MessageRole where
  | manager
  | user
deriving DecidableEq, Repr

/-- models.py Message: role, content, timestamp (modelled as Nat ticks). -/
structure Message where
  role : MessageRole
  content : String
  timestamp : Nat
deriving DecidableEq, Repr

/-- models.py Scenario. -/
structure Scenario where
  id : String
  primary_topic : String
  complexity_level : ComplexityLevel
  surprise_element : Option String := none
  context : String
  initial_prompt : String
  helpful_phrases : List String := []
deriving DecidableEq, Repr

/-- models.py Session. -/
structure Session where
  id : String
  scenario : Scenario
  conversation_history : List Message := []
  start_time : Nat
  is_active : Bool := true
deriving DecidableEq, Repr

/-- models.py UserProgress. -/
structure UserProgress where
  total_sessions : Nat := 0
  current_complexity : ComplexityLevel := ComplexityLevel.easy
  streak_days : Nat := 0
  last_session_date : Option Nat := none
deriving DecidableEq, Repr

/-- models.py Feedback; Python float scores modelled as rationals. -/
structure Feedback where
  clarity_score : ℚ
  fluency_score : ℚ
  professional_score : ℚ
  improvement_tip : String
  detailed_analysis : Option String := none
deriving DecidableEq, Repr

/-- scenarios.py SCENARIOS: the static catalog, embedded verbatim. -/
def SCENARIOS : List Scenario := [
  { id := "easy_1", primary_topic := "weekly_progress",
    complexity_level := ComplexityLevel.easy,
    context := "You had a productive week and completed your assigned tasks.",
    initial_prompt := "Hi! How was your week? What did you work on?",
    helpful_phrases := ["I completed...", "I'm currently working on...",
      "This week I focused on...", "Everything is on track."] },
  { id := "easy_2", primary_topic := "current_tasks",
    complexity_level := ComplexityLevel.easy,
    context := "You're working on updating the user dashboard with new analytics.",
    initial_prompt := "Good morning! What are you currently working on?",
    helpful_phrases := ["I'm working on...", "I'm updating the...",
      "I'm making progress on...", "I should finish this by..."] },
  { id := "medium_1", primary_topic := "minor_delay",
    complexity_level := ComplexityLevel.medium,
    surprise_element := some "Manager asks about impact on timeline",
    context := "Your task is delayed by 2 days because of API documentation issues.",
    initial_prompt := "Hey, how's the API integration going?",
    helpful_phrases := ["I'm running into...", "There's a delay because...",
      "It will take an extra... days", "I estimate I'll finish by..."] },
  { id := "medium_2", primary_topic := "need_clarification",
    complexity_level := ComplexityLevel.medium,
    surprise_element := some "Manager asks you to propose a solution",
    context := "You're unclear about the requirements for the new feature.",
    initial_prompt := "I wanted to check in on the new feature. How's it coming along?",
    helpful_phrases := ["I need clarification on...", "I'm not sure about...",
      "Could we discuss...", "I have a question about..."] },
  { id := "medium_3", primary_topic := "cross_team_dependency",
    complexity_level := ComplexityLevel.medium,
    surprise_element := some "Manager asks when you followed up with other team",
    context := "You're waiting on the design team to finalize mockups.",
    initial_prompt := "What's the status on the homepage redesign?",
    helpful_phrases := ["I'm waiting for...", "I'm blocked by...",
      "Once I receive... I can proceed", "I followed up with... team"] },
  { id := "medium_4", primary_topic := "technical_blocker",
    complexity_level := ComplexityLevel.medium,
    surprise_element := some "Manager asks if you need additional resources",
    context := "You're stuck on a performance issue with database queries.",
    initial_prompt := "How's the database optimization task going?",
    helpful_phrases := ["I'm stuck on...", "I'm facing a challenge with...",
      "I could use some help with...", "I've tried... but..."] },
  { id := "hard_1", primary_topic := "significant_delay",
    complexity_level := ComplexityLevel.hard,
    surprise_element := some "Manager reveals client is waiting on this deliverable",
    context := "Your feature is 5 days behind schedule due to unexpected technical challenges.",
    initial_prompt := "I need an update on the payment integration. The deadline is approaching.",
    helpful_phrases := ["Unfortunately, we're behind schedule because...",
      "I've encountered unexpected...", "My revised estimate is...",
      "Here's what I'm doing to catch up..."] },
  { id := "hard_2", primary_topic := "scope_creep",
    complexity_level := ComplexityLevel.hard,
    surprise_element := some "Manager suggests adding even more features",
    context := "Stakeholders keep requesting additional features beyond the original scope.",
    initial_prompt := "How's the customer portal coming? I heard marketing had some ideas.",
    helpful_phrases := ["We're getting requests for...", "This is beyond the original scope",
      "If we add this, it will impact...", "I suggest we prioritize..."] },
  { id := "hard_3", primary_topic := "need_help",
    complexity_level := ComplexityLevel.hard,
    surprise_element := some "Manager asks why you didn't mention this earlier",
    context := "You've been struggling with a complex algorithm for 3 days and need senior help.",
    initial_prompt := "How's the search algorithm refactoring going? You've been on it for a while.",
    helpful_phrases := ["I need assistance with...", "I've been struggling with...",
      "Could someone review...", "I'd appreciate guidance on..."] },
  { id := "hard_4", primary_topic := "conflicting_priorities",
    complexity_level := ComplexityLevel.hard,
    surprise_element := some "Manager adds another urgent task",
    context := "You have three high-priority tasks and can't complete them all on time.",
    initial_prompt := "Quick check-in. What are you focusing on this week?",
    helpful_phrases := ["I'm currently juggling...", "I need help prioritizing...",
      "Which should I focus on first?", "I can't complete all of these by..."] },
  { id := "hard_5", primary_topic := "quality_vs_speed",
    complexity_level := ComplexityLevel.hard,
    surprise_element := some "Manager emphasizes quality importance after you mention rushing",
    context := "You can meet the deadline but the code quality will suffer, or take 2 more days for proper implementation.",
    initial_prompt := "The demo is in 3 days. Is everything ready?",
    helpful_phrases := ["I can meet the deadline, but...", "There's a trade-off between...",
      "If we want quality, we need...", "I recommend we..."] },
  { id := "easy_3", primary_topic := "completed_task",
    complexity_level := ComplexityLevel.easy,
    context := "You just finished implementing the login page and it's ready for review.",
    initial_prompt := "Hi! I saw you closed the ticket. How did it go?",
    helpful_phrases := ["I finished...", "It's ready for review",
      "I implemented...", "It went smoothly"] },
  { id := "medium_5", primary_topic := "changing_requirements",
    complexity_level := ComplexityLevel.medium,
    surprise_element := some "Manager asks how this affects other features",
    context := "The requirements changed mid-sprint and you need to revise your approach.",
    initial_prompt := "How's the reports feature? I know the requirements were updated.",
    helpful_phrases := ["The requirements changed...", "I need to revise...",
      "This means I'll have to...", "I'm adjusting my approach"] },
  { id := "hard_6", primary_topic := "bug_in_production",
    complexity_level := ComplexityLevel.hard,
    surprise_element := some "Manager asks about prevention measures",
    context := "A bug you introduced is affecting production users, and you're working on a hotfix.",
    initial_prompt := "I heard there's an issue in production. Can you update me?",
    helpful_phrases := ["There's a bug affecting...", "I'm working on a hotfix",
      "The issue is caused by...", "I'll have it fixed by..."] }
]

/-- scenarios.py get_scenarios_by_complexity. -/
def get_scenarios_by_complexity (complexity : ComplexityLevel) : List Scenario :=
  SCENARIOS.filter (fun s => decide (s.complexity_level = complexity))

/-- The list of available scenarios computed inside
scenarios.py select_scenario_for_user (its branch structure, verbatim). -/
def select_available (user_progress : UserProgress) : List Scenario :=
  if user_progress.total_sessions < 2 then
    get_scenarios_by_complexity ComplexityLevel.easy
  else if user_progress.total_sessions < 5 then
    get_scenarios_by_complexity ComplexityLevel.medium
  else
    if user_progress.total_sessions % 3 = 0 then
      get_scenarios_by_complexity ComplexityLevel.hard
    else
      get_scenarios_by_complexity ComplexityLevel.medium

/-- scenarios.py select_scenario_for_user.  Python's random.choice is
modelled by an arbitrary index supplied by the environment, reduced
modulo the list length; choice on an empty list raises, modelled by none. -/
def select_scenario_for_user (user_progress : UserProgress) (pick : Nat) :
    Option Scenario :=
  let available := select_available user_progress
  available.get? (pick % available.length)

/-- scenarios.py determine_next_complexity. -/
def determine_next_complexity (user_progress : UserProgress) : ComplexityLevel :=
  if user_progress.total_sessions < 2 then ComplexityLevel.easy
  else if user_progress.total_sessions < 5 then ComplexityLevel.medium
  else ComplexityLevel.hard

/-- The difficulty tier select_scenario_for_user draws from: the
complexity level whose scenario list its branch structure selects. -/
def select_branch_tier (user_progress : UserProgress) : ComplexityLevel :=
  if user_progress.total_sessions < 2 then ComplexityLevel.easy
  else if user_progress.total_sessions < 5 then ComplexityLevel.medium
  else if user_progress.total_sessions % 3 = 0 then ComplexityLevel.hard
  else ComplexityLevel.medium

/-- The tier rule as the specification states it (EASY if t is below 2,
MEDIUM if t is at least 2 and below 5, and for t at least 5 HARD exactly
when t mod 3 is 0, otherwise MEDIUM). -/
def spec_tier (t : Nat) : ComplexityLevel :=
  if t < 2 then ComplexityLevel.easy
  else if t < 5 then ComplexityLevel.medium
  else if t % 3 = 0 then ComplexityLevel.hard
  else ComplexityLevel.medium

/-- Python list membership of one string in another (the in operator):
does the needle occur as a contiguous substring of the haystack? -/
def matches_at (needle hay : List Char) : Bool :=
  match needle, hay with
  | [], _ => true
  | _ :: _, [] => false
  | a :: as, b :: bs => a == b && matches_at as bs

/-- Substring occurrence at any position (Python needle in hay). -/
def contains_sub (hay needle : List Char) : Bool :=
  match hay with
  | [] => needle.isEmpty
  | _ :: t => matches_at needle hay || contains_sub t needle

/-- Python needle in hay for strings. -/
def str_contains (hay needle : String) : Bool :=
  contains_sub hay.toList needle.toList

/-- Python str.split() with no argument: split on runs of whitespace,
dropping empty pieces. -/
def py_split_whitespace (s : String) : List String :=
  (s.split (fun c => c.isWhitespace)).filter (fun t => !t.isEmpty)

/-- Python truthiness of the Optional[str] surprise_element field:
present and non-empty. -/
def has_surprise (scenario : Scenario) : Bool :=
  match scenario.surprise_element with
  | none => false
  | some se => !se.isEmpty

/-- conversation_engine.py _surprise_already_introduced: do any of the
surprise element's lowercase first three whitespace tokens occur in a
lowercased MANAGER message of the history? -/
def _surprise_already_introduced (session : Session) : Bool :=
  match session.scenario.surprise_element with
  | none => false
  | some se =>
    if se.isEmpty then false
    else
      let surprise_keywords := (py_split_whitespace se.toLower).take 3
      session.conversation_history.any (fun msg =>
        msg.role == MessageRole.manager &&
          surprise_keywords.any (fun keyword =>
            str_contains msg.content.toLower keyword))

/-- conversation_engine.py get_manager_response lines 59 to 63: the exact
condition under which the surprise-element instruction is appended to the
outgoing user message. -/
def should_introduce_surprise (session : Session) : Bool :=
  let exchange_count := session.conversation_history.length / 2
  has_surprise session.scenario &&
    decide (2 ≤ exchange_count) && decide (exchange_count ≤ 4) &&
    !_surprise_already_introduced session

/-- conversation_engine.py get_manager_response lines 64 to 66: the latest
user content as sent to the generator, with the surprise instruction
appended exactly when the condition above holds. -/
def annotated_user_content (session : Session) (user_message : String) : String :=
  if should_introduce_surprise session then
    user_message ++ "\n\nNow introduce this element naturally: " ++
      (session.scenario.surprise_element.getD "")
  else user_message

/-- conversation_engine.py _should_end_conversation.  Wall-clock time is
an explicit now parameter; MAX_SESSION_DURATION (default 300) is the
max_duration parameter. -/
def _should_end_conversation (session : Session) (now max_duration : Nat) : Bool :=
  let exchange_count := session.conversation_history.length / 2
  if 6 ≤ exchange_count then true
  else if max_duration ≤ now - session.start_time then true
  else false

/-- The fixed fallback reply of conversation_engine.py line 92. -/
def FALLBACK_REPLY : String := "I see. Can you tell me more about that?"

/-- conversation_engine.py get_manager_response.  The OpenAI call is the
api argument: none models any raised error (the except branch returns the
fixed fallback and False); some text models a successful completion, whose
content the code strips. -/
def get_manager_response (session : Session) (now max_duration : Nat)
    (api : Option String) : String × Bool :=
  match api with
  | none => (FALLBACK_REPLY, false)
  | some reply => (reply.trim, _should_end_conversation session now max_duration)

/-- main.py sessions: an insertion-ordered mapping (OrderedDict), modelled
as an association list in insertion order. -/
abbrev SessionStore := List (String × Session)

/-- OrderedDict lookup (sessions.get). -/
def store_lookup (store : SessionStore) (sid : String) : Option Session :=
  (store.find? (fun p => p.1 == sid)).map (fun p => p.2)

/-- OrderedDict assignment: an existing key keeps its position, a new key
is appended at the end. -/
def store_set (store : SessionStore) (sid : String) (s : Session) : SessionStore :=
  if store.any (fun p => p.1 == sid) then
    store.map (fun p => if p.1 == sid then (p.1, s) else p)
  else store ++ [(sid, s)]

/-- main.py MAX_SESSIONS_IN_MEMORY. -/
def MAX_SESSIONS_IN_MEMORY : Nat := 100

/-- main.py start_session lines 93 to 95: store the session, then if the
size exceeds the capacity pop the oldest item (popitem with last False
removes the first entry in insertion order). -/
def store_insert_evict (store : SessionStore) (sid : String) (s : Session) :
    SessionStore :=
  let store1 := store_set store sid s
  if MAX_SESSIONS_IN_MEMORY < store1.length then store1.drop 1 else store1

/-- The client-visible failures raised by the endpoints. -/
inductive ApiError where
  | sessionNotFound
  | sessionInactive
deriving DecidableEq, Repr

/-- main.py get_manager_response_endpoint: look up the session, reject an
inactive one, append the USER turn, obtain the manager reply (possibly the
fallback), append the MANAGER turn, deactivate on should_end.  The updated
store is returned alongside the response; error branches leave it
untouched. -/
def get_manager_response_endpoint (store : SessionStore) (sid : String)
    (user_message : String) (now max_duration : Nat) (api : Option String) :
    Except ApiError (String × Bool) × SessionStore :=
  match store_lookup store sid with
  | none => (Except.error ApiError.sessionNotFound, store)
  | some session =>
    if !session.is_active then (Except.error ApiError.sessionInactive, store)
    else
      let session1 := { session with
        conversation_history := session.conversation_history ++
          [{ role := MessageRole.user, content := user_message, timestamp := now }] }
      let rp := get_manager_response session1 now max_duration api
      let session2 := { session1 with
        conversation_history := session1.conversation_history ++
          [{ role := MessageRole.manager, content := rp.1, timestamp := now }],
        is_active := if rp.2 then false else session1.is_active }
      (Except.ok rp, store_set store sid session2)

/-- Case-insensitive anchored pattern match (re.IGNORECASE). -/
def matches_at_ci (pat hay : List Char) : Bool :=
  match pat, hay with
  | [], _ => true
  | _ :: _, [] => false
  | a :: as, b :: bs => a.toLower == b.toLower && matches_at_ci as bs

/-- Numeric value of a run of decimal digits. -/
def digits_val (ds : List Char) : Nat :=
  ds.foldl (fun n c => 10 * n + (c.toNat - 48)) 0

/-- The regex piece for one or more digits with an optional fractional
part (a nonnegative decimal numeral), read off the front of the input. -/
def parse_decimal (cs : List Char) : Option ℚ :=
  let ints := cs.takeWhile Char.isDigit
  let rest := cs.dropWhile Char.isDigit
  if ints.isEmpty then none
  else
    let whole : ℚ := (digits_val ints : ℕ)
    match rest with
    | '.' :: rest1 =>
      let fracs := rest1.takeWhile Char.isDigit
      if fracs.isEmpty then some whole
      else some (whole + (digits_val fracs : ℚ) / ((10 : ℚ) ^ fracs.length))
    | _ => some whole

/-- One anchored attempt of the score regex: the label, optional
whitespace, then a decimal numeral. -/
def score_at (pat hay : List Char) : Option ℚ :=
  if matches_at_ci pat hay then
    parse_decimal ((hay.drop pat.length).dropWhile Char.isWhitespace)
  else none

/-- re.search for the score regex: first position where the whole
pattern matches. -/
def search_score (pat : List Char) : List Char → Option ℚ
  | [] => score_at pat []
  | c :: t =>
    match score_at pat (c :: t) with
    | some q => some q
    | none => search_score pat t

/-- feedback_analyzer.py _extract_score: first case-insensitive match of
the label, a colon, optional whitespace and a decimal numeral; the value
is clamped to the interval from 0 to 10, with 7.0 when absent. -/
def _extract_score (text : String) (category : String) : ℚ :=
  match search_score (category ++ ":").toList text.toList with
  | some score => min (max score 0) 10
  | none => 7

/-- The lazy group of the improvement regex: everything up to the first
blank line (two consecutive newline characters), or the rest. -/
def up_to_double_nl : List Char → List Char
  | [] => []
  | '\n' :: '\n' :: _ => []
  | c :: t => c :: up_to_double_nl t

/-- One anchored attempt of the improvement regex after the label:
optional whitespace then a minimal nonempty run of characters ending at a
blank line or at the end of the text. -/
def improvement_group (rest : List Char) : Option (List Char) :=
  if rest.isEmpty then none
  else
    let body := rest.dropWhile Char.isWhitespace
    if body.isEmpty then some [] else some (up_to_double_nl body)

/-- One anchored attempt of the whole improvement regex. -/
def improvement_at (pat hay : List Char) : Option (List Char) :=
  if matches_at_ci pat hay then improvement_group (hay.drop pat.length)
  else none

/-- re.search for the improvement regex. -/
def search_improvement (pat : List Char) : List Char → Option (List Char)
  | [] => improvement_at pat []
  | c :: t =>
    match improvement_at pat (c :: t) with
    | some g => some g
    | none => search_improvement pat t

/-- feedback_analyzer.py _extract_improvement. -/
def _extract_improvement (text : String) : String :=
  match search_improvement "ONE_IMPROVEMENT:".toList text.toList with
  | some g => (String.mk g).trim
  | none => "Practice being more specific when describing your work and challenges."

/-- feedback_analyzer.py _generate_default_feedback: the fixed default. -/
def _generate_default_feedback : Feedback :=
  { clarity_score := 7
    fluency_score := 7
    professional_score := 7
    improvement_tip := "Great practice session! Focus on being more specific when describing your work and any blockers you encounter."
    detailed_analysis := none }

/-- feedback_analyzer.py analyze_conversation.  The OpenAI call is the
api argument: none models any raised error, some text a successful
completion (whose content the code strips before parsing).  With no
user-authored message, or on failure, the fixed default is returned. -/
def analyze_conversation (session : Session) (api : Option String) : Feedback :=
  let user_messages := (session.conversation_history.filter
    (fun m => m.role == MessageRole.user)).map (fun m => m.content)
  if user_messages.isEmpty then _generate_default_feedback
  else
    match api with
    | none => _generate_default_feedback
    | some raw =>
      let analysis_text := raw.trim
      { clarity_score := _extract_score analysis_text "CLARITY"
        fluency_score := _extract_score analysis_text "FLUENCY"
        professional_score := _extract_score analysis_text "PROFESSIONAL"
        improvement_tip := _extract_improvement analysis_text
        detailed_analysis := some analysis_text }

/-- models.py GetFeedbackResponse. -/
structure GetFeedbackResponse where
  clarity_score : ℚ
  fluency_score : ℚ
  professional_score : ℚ
  one_improvement : String
deriving DecidableEq, Repr

/-- main.py get_feedback: look up the session (no activity check), run
the analyzer, then update the user progress: increment total_sessions,
stamp last_session_date, recompute current_complexity from the
incremented count, and set streak_days to 1 when total_sessions is
positive.  The store itself is not modified. -/
def get_feedback (store : SessionStore) (user_progress : UserProgress)
    (sid : String) (api : Option String) (now : Nat) :
    Except ApiError GetFeedbackResponse × SessionStore × UserProgress :=
  match store_lookup store sid with
  | none => (Except.error ApiError.sessionNotFound, store, user_progress)
  | some session =>
    let feedback := analyze_conversation session api
    let up1 := { user_progress with
      total_sessions := user_progress.total_sessions + 1
      last_session_date := some now }
    let up2 := { up1 with current_complexity := determine_next_complexity up1 }
    let up3 := if 0 < up2.total_sessions then { up2 with streak_days := 1 } else up2
    (Except.ok { clarity_score := feedback.clarity_score
                 fluency_score := feedback.fluency_score
                 professional_score := feedback.professional_score
                 one_improvement := feedback.improvement_tip },
     store, up3)

/-! ## Concrete sample data for witnesses -/

/-- A scenario with a surprise element, for concrete evaluations. -/
def sample_scenario : Scenario :=
  { id := "medium_w", primary_topic := "minor_delay",
    complexity_level := ComplexityLevel.medium,
    surprise_element := some "deadline moved up significantly",
    context := "ctx", initial_prompt := "opening",
    helpful_phrases := [] }

/-- An active session after two full exchanges. -/
def sample_session : Session :=
  { id := "sid", scenario := sample_scenario,
    conversation_history :=
      [{ role := MessageRole.manager, content := "opening", timestamp := 0 },
       { role := MessageRole.user, content := "hello", timestamp := 1 },
       { role := MessageRole.manager, content := "ok", timestamp := 2 },
       { role := MessageRole.user, content := "fine", timestamp := 3 }],
    start_time := 0, is_active := true }

/-- The same session already marked ended. -/
def ended_session : Session := { sample_session with is_active := false }

/-- A session whose history already holds twelve turns. -/
def long_session : Session :=
  { sample_session with
    conversation_history :=
      List.replicate 12 { role := MessageRole.user, content := "x", timestamp := 0 } }

/-- A session whose history holds no USER-authored turn. -/
def manager_only_session : Session :=
  { sample_session with
    conversation_history :=
      [{ role := MessageRole.manager, content := "opening", timestamp := 0 }] }

/-- A full session store of 100 entries. -/
def full_store : SessionStore := List.replicate 100 ("k", sample_session)

/-! ## Helper lemmas -/

lemma mem_tier (c : ComplexityLevel) (s : Scenario)
    (hs : s ∈ get_scenarios_by_complexity c) : s.complexity_level = c := by
  have h := List.mem_filter.mp hs
  exact of_decide_eq_true h.2

lemma select_available_eq (up : UserProgress) :
    select_available up = get_scenarios_by_complexity (select_branch_tier up) := by
  unfold select_available select_branch_tier
  split_ifs <;> rfl

lemma select_branch_tier_eq_spec_tier (up : UserProgress) :
    select_branch_tier up = spec_tier up.total_sessions := rfl

lemma nonempty_tier (c : ComplexityLevel) : get_scenarios_by_complexity c ≠ [] := by
  cases c <;> decide

lemma find?_map_set (sid : String) (s : Session) :
    ∀ store : SessionStore, store.any (fun p => p.1 == sid) = true →
      ((store.map (fun p => if p.1 == sid then (p.1, s) else p)).find?
        (fun p => p.1 == sid)).map (fun p => p.2) = some s := by
  intro store h
  induction store with
  | nil => simp at h
  | cons hd tl ih =>
    simp only [List.any_cons] at h
    by_cases hk : (hd.1 == sid) = true
    · rw [List.map_cons, if_pos hk]
      simp [List.find?_cons, hk]
    · have hk' : (hd.1 == sid) = false := Bool.eq_false_iff.mpr hk
      rw [hk', Bool.false_or] at h
      rw [List.map_cons, if_neg hk]
      simp only [List.find?_cons, hk']
      exact ih h

lemma store_lookup_set_self (store : SessionStore) (sid : String) (s : Session) :
    store_lookup (store_set store sid s) sid = some s := by
  unfold store_lookup store_set
  by_cases h : store.any (fun p => p.1 == sid) = true
  · rw [if_pos h]
    exact find?_map_set sid s store h
  · rw [if_neg h]
    have hfalse : store.any (fun p => p.1 == sid) = false :=
      Bool.eq_false_iff.mpr h
    have hnone : store.find? (fun p => p.1 == sid) = none := by
      rw [List.find?_eq_none]
      intro x hx
      exact (List.any_eq_false.mp hfalse) x hx
    rw [List.find?_append, hnone]
    simp [List.find?]

/-! ## C2: tier of the scenario chosen by select_scenario_for_user -/

/-- C2: for every progress state (so in particular for every
total_sessions value t in the interval from 0 to 20) and every random
pick, select_scenario_for_user returns a scenario, and that scenario's
tier is EASY iff t is below 2, MEDIUM iff t is between 2 and 4, and for
t at least 5 HARD iff t is divisible by 3, else MEDIUM — that is, the
tier equals spec_tier t. -/
theorem selected_scenario_matches_spec_tier (up : UserProgress) (pick : Nat) :
    (select_scenario_for_user up pick).isSome = true ∧
    (select_scenario_for_user up pick).all
      (fun s => decide (s.complexity_level = spec_tier up.total_sessions)) = true := by
  have havail : select_available up
      = get_scenarios_by_complexity (spec_tier up.total_sessions) := by
    rw [select_available_eq, select_branch_tier_eq_spec_tier]
  simp only [select_scenario_for_user, havail]
  have hne := nonempty_tier (spec_tier up.total_sessions)
  have hpos : 0 < (get_scenarios_by_complexity (spec_tier up.total_sessions)).length :=
    List.length_pos.mpr hne
  have hlt : pick % (get_scenarios_by_complexity (spec_tier up.total_sessions)).length
      < (get_scenarios_by_complexity (spec_tier up.total_sessions)).length :=
    Nat.mod_lt _ hpos
  rw [List.get?_eq_get hlt]
  refine ⟨rfl, ?_⟩
  simp only [Option.all]
  exact decide_eq_true (mem_tier _ _ (List.get_mem _ _ hlt))

/-! ## C1: determine_next_complexity versus the selector's tier rule -/

/-- C1 counterexample: at total_sessions = 7 the companion function
determine_next_complexity returns HARD, while select_scenario_for_user
draws from the MEDIUM scenarios only (7 is at least 5 and not divisible
by 3), so the two boundary logics are not identical. -/
theorem determine_next_complexity_diverges_at_seven :
    determine_next_complexity { total_sessions := 7 } = ComplexityLevel.hard ∧
    (select_available { total_sessions := 7 }).all
      (fun s => decide (s.complexity_level = ComplexityLevel.medium)) = true ∧
    (select_scenario_for_user { total_sessions := 7 } 0).isSome = true ∧
    ComplexityLevel.hard ≠ ComplexityLevel.medium := by
  refine ⟨rfl, by decide, rfl, by decide⟩

/-- C1 amended: the selector's branch tier follows the spec tier rule,
and determine_next_complexity agrees with it exactly when total_sessions
is below 5 or divisible by 3; for total_sessions at least 5 and not
divisible by 3 determine_next_complexity returns HARD while the selector
uses MEDIUM. -/
theorem determine_next_complexity_agreement (up : UserProgress) :
    select_branch_tier up = spec_tier up.total_sessions ∧
    (determine_next_complexity up = select_branch_tier up ↔
      (up.total_sessions < 5 ∨ up.total_sessions % 3 = 0)) := by
  refine ⟨rfl, ?_⟩
  unfold determine_next_complexity select_branch_tier
  split_ifs with h2 h5 h3 <;> simp <;> omega

/-! ## C7: session store capacity and FIFO eviction -/

/-- C7: provided the store holds at most 100 sessions before the insert
(the invariant every insert preserves), it holds at most 100 afterwards;
and inserting a fresh session id into a full store of 100 evicts exactly
the oldest-inserted entry, the head of the insertion-ordered list. -/
theorem store_insert_bounded_fifo (store : SessionStore) (sid : String) (s : Session)
    (hcap : store.length ≤ 100) :
    (store_insert_evict store sid s).length ≤ 100 ∧
    (store.length = 100 → store.any (fun p => p.1 == sid) = false →
      store_insert_evict store sid s = store.drop 1 ++ [(sid, s)]) := by
  constructor
  · simp only [store_insert_evict, store_set, MAX_SESSIONS_IN_MEMORY]
    by_cases h : store.any (fun p => p.1 == sid) = true
    · rw [if_pos h]
      split <;>
        simp only [List.length_drop, List.length_map] <;> omega
    · rw [if_neg h]
      split <;>
        · rename_i hc
          simp only [List.length_drop, List.length_append, List.length_cons,
            List.length_nil] at hc ⊢
          omega
  · intro h100 hfresh
    have hne : ¬ (store.any (fun p => p.1 == sid) = true) := by simp [hfresh]
    have hlen : (store ++ [(sid, s)]).length = 101 := by simp [h100]
    simp only [store_insert_evict, store_set, MAX_SESSIONS_IN_MEMORY]
    rw [if_neg hne, if_pos (by rw [hlen]; omega)]
    exact List.drop_append_of_le_length (by rw [h100]; omega)

/-! ## C3: a submitted turn appends one USER and one MANAGER message -/

/-- C3 counterexample: with the collaborator failing (api none) a
submit-user-turn call still appends two turns, not one: starting from a
4-turn session the stored history reaches 6 turns and the fallback
MANAGER reply is returned, so the turn count never increases by just 1. -/
theorem submit_failure_still_appends_two :
    (store_lookup (get_manager_response_endpoint [("sid", sample_session)]
        "sid" "msg" 9 300 none).2 "sid").map
      (fun s => s.conversation_history.length) = some 6 ∧
    sample_session.conversation_history.length = 4 ∧
    (get_manager_response_endpoint [("sid", sample_session)] "sid" "msg" 9 300 none).1
      = Except.ok (FALLBACK_REPLY, false) ∧
    (6 : Nat) ≠ 4 + 1 := by
  refine ⟨rfl, rfl, rfl, by decide⟩

/-- C3 amended: for every active stored session and every user text, a
submit-user-turn call succeeds and appends exactly one USER turn then one
MANAGER turn, so the turn count increases by 2 whether the collaborator
succeeds or fails (the fallback still appends a MANAGER turn). -/
theorem submit_turn_appends_user_then_manager
    (store : SessionStore) (sid user_message : String) (now max_duration : Nat)
    (api : Option String) (session : Session)
    (hfind : store_lookup store sid = some session)
    (hact : session.is_active = true) :
    ∃ s2 reply ended,
      (get_manager_response_endpoint store sid user_message now max_duration api).1
        = Except.ok (reply, ended) ∧
      store_lookup
        (get_manager_response_endpoint store sid user_message now max_duration api).2 sid
        = some s2 ∧
      s2.conversation_history = session.conversation_history ++
        [{ role := MessageRole.user, content := user_message, timestamp := now },
         { role := MessageRole.manager, content := reply, timestamp := now }] ∧
      s2.conversation_history.length = session.conversation_history.length + 2 := by
  simp only [get_manager_response_endpoint, hfind, hact, Bool.not_true,
    Bool.false_eq_true, if_false]
  cases api with
  | none =>
    refine ⟨_, FALLBACK_REPLY, false, rfl, store_lookup_set_self _ _ _, ?_, ?_⟩ <;>
      simp [get_manager_response]
  | some r =>
    refine ⟨_, r.trim, _, rfl, store_lookup_set_self _ _ _, ?_, ?_⟩ <;>
      simp [get_manager_response]

/-! ## C4: six exchanges force the end-of-session test -/

/-- C4: whenever the history (as measured on the call, after the USER
turn was appended) yields an exchange count of at least 6, the
end-of-session test is true regardless of the clock and of the
configured maximum duration. -/
theorem exchange_threshold_ends_conversation (session : Session)
    (now max_duration : Nat)
    (h : 6 ≤ session.conversation_history.length / 2) :
    _should_end_conversation session now max_duration = true := by
  unfold _should_end_conversation
  simp [h]

/-- C4 witness: a 12-turn session ends at once even with a fresh clock. -/
theorem exchange_threshold_ends_conversation_witness :
    6 ≤ long_session.conversation_history.length / 2 ∧
    _should_end_conversation long_session 0 300 = true :=
  ⟨by decide, exchange_threshold_ends_conversation long_session 0 300 (by decide)⟩

/-! ## C5: submitting into an ended session fails and changes nothing -/

/-- C5: when the stored session is no longer active, a submit-user-turn
call fails with the SessionInactive error and returns the store
unchanged: nothing is appended and the session stays ended. -/
theorem inactive_session_rejected
    (store : SessionStore) (sid user_message : String) (now max_duration : Nat)
    (api : Option String) (session : Session)
    (hfind : store_lookup store sid = some session)
    (hinact : session.is_active = false) :
    get_manager_response_endpoint store sid user_message now max_duration api
      = (Except.error ApiError.sessionInactive, store) := by
  simp only [get_manager_response_endpoint, hfind, hinact]
  simp

/-- C5 witness: an ended session rejects a new turn, store untouched. -/
theorem inactive_session_rejected_witness :
    store_lookup [("sid", ended_session)] "sid" = some ended_session ∧
    ended_session.is_active = false ∧
    get_manager_response_endpoint [("sid", ended_session)] "sid" "msg" 9 300 (some "r")
      = (Except.error ApiError.sessionInactive, [("sid", ended_session)]) :=
  ⟨by decide, rfl,
    inactive_session_rejected [("sid", ended_session)] "sid" "msg" 9 300 (some "r")
      ended_session (by decide) rfl⟩

/-! ## C6: collaborator failure yields the fallback and never ends -/

/-- C6: when the Dialogue Generator collaborator fails (api none) on an
active stored session, the call returns exactly the fixed fallback reply
with the end flag false, and the stored session remains active. -/
theorem collaborator_failure_fallback
    (store : SessionStore) (sid user_message : String) (now max_duration : Nat)
    (session : Session)
    (hfind : store_lookup store sid = some session)
    (hact : session.is_active = true) :
    (get_manager_response_endpoint store sid user_message now max_duration none).1
      = Except.ok (FALLBACK_REPLY, false) ∧
    FALLBACK_REPLY = "I see. Can you tell me more about that?" ∧
    (store_lookup
        (get_manager_response_endpoint store sid user_message now max_duration none).2 sid).map
      (fun s => s.is_active) = some true := by
  simp only [get_manager_response_endpoint, hfind, hact, Bool.not_true,
    Bool.false_eq_true, if_false, get_manager_response]
  refine ⟨by trivial, by trivial, ?_⟩
  rw [store_lookup_set_self]
  simp

/-- C6 witness: a concrete failing call returns the fallback and leaves
the session active. -/
theorem collaborator_failure_fallback_witness :
    store_lookup [("sid", sample_session)] "sid" = some sample_session ∧
    sample_session.is_active = true ∧
    ((get_manager_response_endpoint [("sid", sample_session)] "sid" "msg" 9 300 none).1
        = Except.ok (FALLBACK_REPLY, false) ∧
      FALLBACK_REPLY = "I see. Can you tell me more about that?" ∧
      (store_lookup
          (get_manager_response_endpoint [("sid", sample_session)] "sid" "msg" 9 300 none).2
          "sid").map (fun s => s.is_active) = some true) :=
  ⟨by decide, rfl,
    collaborator_failure_fallback [("sid", sample_session)] "sid" "msg" 9 300
      sample_session (by decide) rfl⟩

/-- C3 witness: a concrete failing call on a 4-turn session. -/
theorem submit_turn_appends_user_then_manager_witness :
    store_lookup [("sid", sample_session)] "sid" = some sample_session ∧
    sample_session.is_active = true ∧
    (∃ s2 reply ended,
      (get_manager_response_endpoint [("sid", sample_session)] "sid" "msg" 9 300 none).1
        = Except.ok (reply, ended) ∧
      store_lookup
        (get_manager_response_endpoint [("sid", sample_session)] "sid" "msg" 9 300 none).2
        "sid" = some s2 ∧
      s2.conversation_history = sample_session.conversation_history ++
        [{ role := MessageRole.user, content := "msg", timestamp := 9 },
         { role := MessageRole.manager, content := reply, timestamp := 9 }] ∧
      s2.conversation_history.length = sample_session.conversation_history.length + 2) :=
  ⟨by decide, rfl,
    submit_turn_appends_user_then_manager [("sid", sample_session)] "sid" "msg" 9 300 none
      sample_session (by decide) rfl⟩

/-- C7 witness: a full store of 100 entries stays at 100 and drops its
head when a fresh session id is inserted. -/
theorem store_insert_bounded_fifo_witness :
    full_store.length ≤ 100 ∧
    ((store_insert_evict full_store "fresh" sample_session).length ≤ 100 ∧
     (full_store.length = 100 → full_store.any (fun p => p.1 == "fresh") = false →
       store_insert_evict full_store "fresh" sample_session
         = full_store.drop 1 ++ [("fresh", sample_session)])) :=
  ⟨by decide, store_insert_bounded_fifo full_store "fresh" sample_session (by decide)⟩

/-! ## C8: when the surprise instruction is attached -/

/-- C8: for a scenario with a (non-empty) surprise element, the outgoing
generation request carries the surprise instruction iff the exchange
count lies in the closed interval from 2 to 4 and none of the element's
lowercase first three whitespace-separated tokens occurs as a substring
of any prior MANAGER turn's lowercased text; in particular once a MANAGER
turn contains such a token the instruction is not re-added. -/
theorem surprise_instruction_iff (session : Session) (se : String)
    (hse : session.scenario.surprise_element = some se) (hne : se ≠ "") :
    should_introduce_surprise session = true ↔
      (2 ≤ session.conversation_history.length / 2 ∧
       session.conversation_history.length / 2 ≤ 4 ∧
       ∀ msg ∈ session.conversation_history, msg.role = MessageRole.manager →
         ∀ kw ∈ (py_split_whitespace se.toLower).take 3,
           str_contains msg.content.toLower kw = false) := by
  have hemp : se.isEmpty = false :=
    Bool.eq_false_iff.mpr (fun hc => hne ((String.isEmpty_iff se).mp hc))
  unfold should_introduce_surprise has_surprise _surprise_already_introduced
  rw [hse]
  simp only [hemp, Bool.not_false, Bool.true_and, Bool.false_eq_true, if_false,
    Bool.and_eq_true, decide_eq_true_eq, Bool.not_eq_true', List.any_eq_false,
    beq_iff_eq, List.any_eq_true, not_exists, not_and, and_assoc,
    Bool.not_eq_true]

/-- C8 witness: the sample session (exchange count 2, surprise element
present, no keyword mentioned yet) satisfies both sides. -/
theorem surprise_instruction_iff_witness :
    sample_session.scenario.surprise_element = some "deadline moved up significantly" ∧
    "deadline moved up significantly" ≠ "" ∧
    (should_introduce_surprise sample_session = true ↔
      (2 ≤ sample_session.conversation_history.length / 2 ∧
       sample_session.conversation_history.length / 2 ≤ 4 ∧
       ∀ msg ∈ sample_session.conversation_history, msg.role = MessageRole.manager →
         ∀ kw ∈ (py_split_whitespace "deadline moved up significantly".toLower).take 3,
           str_contains msg.content.toLower kw = false)) :=
  ⟨rfl, by decide,
    surprise_instruction_iff sample_session "deadline moved up significantly" rfl (by decide)⟩

/-! ## C9: default feedback on zero user turns or scorer failure -/

/-- C9: with no USER-authored turn in the transcript, or whenever the
scorer collaborator fails, analyze_conversation returns exactly the fixed
default feedback, whose three scores are 7 and whose tip is the fixed
generic one. -/
theorem analyzer_default_on_empty_or_failure :
    (∀ (session : Session) (api : Option String),
        session.conversation_history.filter (fun m => m.role == MessageRole.user) = [] →
        analyze_conversation session api = _generate_default_feedback) ∧
    (∀ session : Session, analyze_conversation session none = _generate_default_feedback) ∧
    _generate_default_feedback.clarity_score = 7 ∧
    _generate_default_feedback.fluency_score = 7 ∧
    _generate_default_feedback.professional_score = 7 ∧
    _generate_default_feedback.improvement_tip =
      "Great practice session! Focus on being more specific when describing your work and any blockers you encounter." := by
  refine ⟨?_, ?_, rfl, rfl, rfl, rfl⟩
  · intro session api h
    unfold analyze_conversation
    rw [h]
    simp
  · intro session
    simp only [analyze_conversation]
    by_cases hc : ((session.conversation_history.filter
        (fun m => m.role == MessageRole.user)).map (fun m => m.content)).isEmpty = true
    · simp [hc]
    · simp [hc]

/-- C9 witness: a manager-only transcript and a failing scorer both get
the fixed default. -/
theorem analyzer_default_witness :
    manager_only_session.conversation_history.filter
      (fun m => m.role == MessageRole.user) = [] ∧
    analyze_conversation manager_only_session (some "CLARITY: 9")
      = _generate_default_feedback ∧
    analyze_conversation sample_session none = _generate_default_feedback :=
  ⟨by decide,
    analyzer_default_on_empty_or_failure.1 manager_only_session (some "CLARITY: 9")
      (by decide),
    analyzer_default_on_empty_or_failure.2.1 sample_session⟩

/-! ## C10: request-feedback needs only presence and always increments -/

/-- C10: for every stored session, active or ended, get_feedback
succeeds, leaves the store (hence the session's turn history and
active flag) unchanged, and increments total_sessions by exactly one;
a repeated call increments it again. -/
theorem feedback_requires_only_presence (store : SessionStore) (up : UserProgress)
    (sid : String) (api : Option String) (now : Nat) (session : Session)
    (hfind : store_lookup store sid = some session) :
    (get_feedback store up sid api now).1.isOk = true ∧
    (get_feedback store up sid api now).2.1 = store ∧
    (get_feedback store up sid api now).2.2.total_sessions = up.total_sessions + 1 ∧
    store_lookup (get_feedback store up sid api now).2.1 sid = some session ∧
    (get_feedback (get_feedback store up sid api now).2.1
        (get_feedback store up sid api now).2.2 sid api now).2.2.total_sessions
      = up.total_sessions + 2 := by
  simp only [get_feedback, hfind]
  refine ⟨?_, ?_, ?_, ?_, ?_⟩ <;>
    simp [get_feedback, hfind, Except.isOk, Except.toBool]

/-- C10 witness: feedback on a still-active stored session succeeds and
counts it; a second call counts again. -/
theorem feedback_requires_only_presence_witness :
    store_lookup [("sid", sample_session)] "sid" = some sample_session ∧
    sample_session.is_active = true ∧
    ((get_feedback [("sid", sample_session)] { total_sessions := 0 } "sid" none 9).1.isOk
        = true ∧
      (get_feedback [("sid", sample_session)] { total_sessions := 0 } "sid" none 9).2.1
        = [("sid", sample_session)] ∧
      (get_feedback [("sid", sample_session)] { total_sessions := 0 } "sid" none 9).2.2.total_sessions
        = 0 + 1 ∧
      store_lookup
        (get_feedback [("sid", sample_session)] { total_sessions := 0 } "sid" none 9).2.1
        "sid" = some sample_session ∧
      (get_feedback (get_feedback [("sid", sample_session)] { total_sessions := 0 } "sid" none 9).2.1
          (get_feedback [("sid", sample_session)] { total_sessions := 0 } "sid" none 9).2.2
          "sid" none 9).2.2.total_sessions = 0 + 2) :=
  ⟨by decide, rfl,
    feedback_requires_only_presence [("sid", sample_session)] { total_sessions := 0 }
      "sid" none 9 sample_session (by decide)⟩

end FluentWork
